import Mathlib

/-!
Shallow embedding of the orchestration script run-task.py of the
datasync-task-runner repository, together with proofs of the spec claims.

Modelling conventions:
* Remote AWS calls become trace events; the remote service's responses are
  scripted by an Env record (arbitrary response streams).
* Python dicts holding the user configuration become structures; a lookup
  via dict.get with a default becomes Option.getD, a plain indexing becomes
  a total field (no claim concerns missing required fields).
* Timestamps are Nat (epoch seconds); strftime is modelled by a concrete
  injective rendering function.
* The two while loops poll a scripted stream until a status predicate
  holds; they are modelled with a fuel bound, and divergence of the Python
  loop corresponds to the run ending in the fuelOut result for every fuel.
* The per-tick line written by logging.info inside the execution loop is a
  logTick event; the constant progress messages carry no claim-relevant
  data and are not modelled as events.
-/

namespace DataSync

/-- Epoch timestamps, as produced by time.time. -/
abbrev Time := Nat

/-- Rendering of a timestamp by strftime into a date string. -/
def strftime (t : Time) : String := "ts-" ++ toString t

/-- Values appearing in the keyword payloads of the boto3 calls. -/
inductive Val where
  | s (v : String)
  | n (v : Nat)
  | none_
  | list (vs : List Val)
  | obj (fields : List (String × Val))

/-- Val.s applied to an optional string, for config.get fields defaulting to None. -/
def optVal (o : Option String) : Val :=
  match o with
  | some v => Val.s v
  | none => Val.none_

/-- One location descriptor dict (the source or destination entry of the
configuration).  Fields read by create_location via plain indexing are total;
fields read via config.get carry an Option (or a listed default). -/
structure LocConfig where
  type_ : String
  subdirectory : String := ""
  arn : String := ""
  hostname : String := ""
  bucket : String := ""
  user : String := ""
  password : String := ""
  ec2_subnet_arn : String := ""
  ec2_security_group_arns : List String := []
  security_group_arns : List String := []
  agent_arns : Option (List String) := none
  tags : Option (List Val) := none
  domain : Option String := none
  nfs_version : Option String := none
  smb_version : Option String := none
  port : Option Nat := none
  protocol : Option String := none
  access_key : Option String := none
  secret_key : Option String := none
  storage_class : Option String := none
  access_role_arn : Option String := none

/-- The dict returned by the configuration module's config() function. -/
structure Config where
  source_arn : Option String := none
  destination_arn : Option String := none
  source : LocConfig
  destination : LocConfig
  cloudwatch_log_group_arn : String := ""
  excludes : List Val := []
  includes : List Val := []
  sns_topic_arn : Option String := none

/-- Which of the two notification templates was rendered. -/
inductive TemplateKind where
  | success
  | failure

/-- A rendered notification: the template used and the values substituted
for its named placeholders (the keyword arguments of str.format in the
code); error is filled only by the failure template. -/
structure Message where
  template : TemplateKind
  count : Nat
  source : String
  destination : String
  start_time : String
  end_time : String
  error : Option String

/-- The response of describe_task_execution.  The code reads Status,
StartTime, FilesTransferred and Result.ErrorDetail; remoteEndTime stands
for the additional timing data of the remote result that the code never
reads. -/
structure ExecResponse where
  status : String
  startTime : Time
  filesTransferred : Nat
  resultErrorDetail : String
  remoteEndTime : Time

/-- Observable remote interactions of one run, in program order. -/
inductive Event where
  | createLocationCall (api : String) (payload : List (String × Val))
  | createTaskCall (sourceArn destArn logGroup : String) (excludes : List Val)
  | describeTaskCall (status : String)
  | startTaskExecutionCall (taskArn : Option String) (includes : List Val)
  | describeTaskExecutionCall (status : String)
  | logTick (elapsedSecs : Nat) (status : String)
  | deleteLocationCall (arn : String)
  | publishCall (subject : String) (message : Message)

/-- Scripted behaviour of the remote service and of the clock during one
run: what each call would return, in the order the code can make them. -/
structure Env where
  sourceCreateArn : Option String
  destCreateArn : Option String
  taskArn : Option String
  taskStatuses : Nat → String
  execArn : Option String
  execResponses : Nat → ExecResponse
  elapsed : Nat → Nat
  now : Time

/-- Translation of create_location: one branch per recognized value of the
type tag, each issuing the corresponding create call and returning the
LocationArn field of the remote response (resp; None when absent); an
unrecognized tag issues no call and returns None (response stays the empty
dict). -/
def create_location (resp : Option String) (config : LocConfig) : List Event × Option String :=
  if config.type_ = "efs" then
    ([Event.createLocationCall "create_location_efs" [
        ("Subdirectory", Val.s config.subdirectory),
        ("EfsFilesystemArn", Val.s config.arn),
        ("Ec2Config", Val.obj [
          ("SubnetArn", Val.s config.ec2_subnet_arn),
          ("SecurityGroupArns", Val.list (config.ec2_security_group_arns.map Val.s))]),
        ("Tags", Val.list (config.tags.getD []))]], resp)
  else if config.type_ = "fsx_windows" then
    ([Event.createLocationCall "create_location_fsx_windows" [
        ("Subdirectory", Val.s config.subdirectory),
        ("FsxFilesystemArn", Val.s config.arn),
        ("SecurityGroupArns", Val.list (config.security_group_arns.map Val.s)),
        ("Domain", optVal config.domain),
        ("User", Val.s config.user),
        ("Password", Val.s config.password),
        ("Tags", Val.list (config.tags.getD []))]], resp)
  else if config.type_ = "nfs" then
    ([Event.createLocationCall "create_location_nfs" [
        ("Subdirectory", Val.s config.subdirectory),
        ("ServerHostname", Val.s config.hostname),
        ("OnPremConfig", Val.obj [
          ("AgentArns", Val.list ((config.agent_arns.getD []).map Val.s))]),
        ("MountOptions", Val.obj [
          ("Version", Val.s (config.nfs_version.getD "AUTOMATIC"))]),
        ("Tags", Val.list (config.tags.getD []))]], resp)
  else if config.type_ = "object_storage" then
    ([Event.createLocationCall "create_location_object_storage" [
        ("ServerHostname", Val.s config.hostname),
        ("ServerPort", Val.n (config.port.getD 443)),
        ("ServerProtocol", Val.s (config.protocol.getD "HTTPS")),
        ("Subdirectory", Val.s config.subdirectory),
        ("BucketName", Val.s config.bucket),
        ("AccessKey", optVal config.access_key),
        ("SecretKey", optVal config.secret_key),
        ("AgentArns", Val.list ((config.agent_arns.getD []).map Val.s)),
        ("Tags", Val.list (config.tags.getD []))]], resp)
  else if config.type_ = "s3" then
    ([Event.createLocationCall "create_location_s3" [
        ("S3BucketArn", Val.s config.arn),
        ("S3StorageClass", Val.s (config.storage_class.getD "STANDARD")),
        ("S3Config", Val.obj [("BucketAccessRoleArn", optVal config.access_role_arn)]),
        ("Subdirectory", Val.s config.subdirectory),
        ("Tags", Val.list (config.tags.getD []))]], resp)
  else if config.type_ = "smb" then
    ([Event.createLocationCall "create_location_smb" [
        ("ServerHostname", Val.s config.hostname),
        ("Subdirectory", Val.s config.subdirectory),
        ("Domain", optVal config.domain),
        ("User", Val.s config.user),
        ("Password", Val.s config.password),
        ("AgentArns", Val.list ((config.agent_arns.getD []).map Val.s)),
        ("MountOptions", Val.s (config.smb_version.getD "AUTOMATIC")),
        ("Tags", Val.list (config.tags.getD []))]], resp)
  else
    ([], none)

/-- The six type tags with a branch in create_location. -/
def recognizedKind (t : String) : Bool :=
  t = "efs" || t = "fsx_windows" || t = "nfs" || t = "object_storage" || t = "s3" || t = "smb"

/-- The statuses on which the readiness loop of main stops: the Python loop
condition is: status not in the list AVAILABLE, UNAVAILABLE, QUEUED. -/
def readyTask (s : String) : Bool :=
  s = "AVAILABLE" || s = "UNAVAILABLE" || s = "QUEUED"

/-- The statuses on which the execution loop of main stops: the Python loop
condition is: status not in the list SUCCESS, ERROR. -/
def terminalExec (s : String) : Bool :=
  s = "SUCCESS" || s = "ERROR"

/-- Index of the first tick at or after s whose response satisfies p, found
within the given fuel; none models a loop still running after fuel ticks. -/
def firstHitAux (p : Nat → Bool) : Nat → Nat → Option Nat
  | 0, _ => none
  | fuel + 1, i => if p i then some i else firstHitAux p fuel (i + 1)

/-- Index of the first tick whose response satisfies p, within fuel ticks.
The Python loops always describe at least once (the initial status dict is
empty), so tick i corresponds to the i-th describe call. -/
def firstHit (p : Nat → Bool) (fuel : Nat) : Option Nat :=
  firstHitAux p fuel 0

/-- Events of the first n ticks of the readiness loop: one describe_task
call per tick, no logging in the loop body. -/
def taskPollEvents (env : Env) : Nat → List Event
  | 0 => []
  | n + 1 => taskPollEvents env n ++ [Event.describeTaskCall (env.taskStatuses n)]

/-- Events of tick i of the execution loop: the describe_task_execution
call followed by the logging.info line recording the elapsed duration and
the freshly observed status. -/
def execTickEvents (env : Env) (i : Nat) : List Event :=
  [Event.describeTaskExecutionCall (env.execResponses i).status,
   Event.logTick (env.elapsed i) (env.execResponses i).status]

/-- Events of the first n ticks of the execution loop. -/
def execPollEvents (env : Env) : Nat → List Event
  | 0 => []
  | n + 1 => execPollEvents env n ++ execTickEvents env n

/-- The value of the source_arn variable of main: config.get applied to the
key source_arn with create_location as the (eagerly evaluated) default. -/
def resolveSource (env : Env) (config : Config) : Option String :=
  match config.source_arn with
  | some a => some a
  | none => (create_location env.sourceCreateArn config.source).2

/-- The value of the destination_arn variable of main. -/
def resolveDest (env : Env) (config : Config) : Option String :=
  match config.destination_arn with
  | some a => some a
  | none => (create_location env.destCreateArn config.destination).2

/-- The notification block at the end of main: nothing without a configured
topic; otherwise render and publish the success or the failure template,
substituting the transfer count, the two location arns, the remote
StartTime formatted by strftime, the current local time formatted by
strftime, and (failure only) the error detail of the execution result. -/
def notifyEvents (env : Env) (config : Config) (src dst : String) (final : ExecResponse) : List Event :=
  match config.sns_topic_arn with
  | none => []
  | some _ =>
    let start_time := strftime final.startTime
    let end_time := strftime env.now
    if final.status = "SUCCESS" then
      [Event.publishCall "DataSync Success"
        { template := TemplateKind.success, count := final.filesTransferred,
          source := src, destination := dst,
          start_time := start_time, end_time := end_time, error := none }]
    else if final.status = "ERROR" then
      [Event.publishCall "DataSync Failure"
        { template := TemplateKind.failure, count := final.filesTransferred,
          source := src, destination := dst,
          start_time := start_time, end_time := end_time,
          error := some final.resultErrorDetail }]
    else []

/-- The errors main can raise after the configuration has been loaded. -/
inductive RunError where
  | invalidConfig
  | invalidArn

/-- How a run ends: normal return, an uncaught error, or a loop still
polling when the fuel bound is reached. -/
inductive RunResult where
  | done
  | err (e : RunError)
  | fuelOut

/-- Translation of main from the point where the configuration has been
loaded.  Both create_location calls happen unconditionally, in source then
destination order, because Python evaluates the default argument of
dict.get eagerly; their events open the trace.  The two loops are bounded
by fuel1 and fuel2 ticks. -/
def runMain (env : Env) (config : Config) (fuel1 fuel2 : Nat) : List Event × RunResult :=
  let ev0 := (create_location env.sourceCreateArn config.source).1
          ++ (create_location env.destCreateArn config.destination).1
  match resolveSource env config, resolveDest env config with
  | some src, some dst =>
    let ev1 := ev0 ++ [Event.createTaskCall src dst config.cloudwatch_log_group_arn config.excludes]
    match firstHit (fun i => readyTask (env.taskStatuses i)) fuel1 with
    | none => (ev1 ++ taskPollEvents env fuel1, RunResult.fuelOut)
    | some k =>
      let ev2 := ev1 ++ taskPollEvents env (k + 1)
      if env.taskStatuses k = "UNAVAILABLE" then
        (ev2, RunResult.err RunError.invalidArn)
      else
        let ev3 := ev2 ++ [Event.startTaskExecutionCall env.taskArn config.includes]
        match firstHit (fun i => terminalExec (env.execResponses i).status) fuel2 with
        | none => (ev3 ++ execPollEvents env fuel2, RunResult.fuelOut)
        | some m =>
          let final := env.execResponses m
          let ev4 := ev3 ++ execPollEvents env (m + 1)
                 ++ [Event.deleteLocationCall src, Event.deleteLocationCall dst]
          (ev4 ++ notifyEvents env config src dst final, RunResult.done)
  | _, _ => (ev0, RunResult.err RunError.invalidConfig)

/-- Recognizer for create-location events. -/
def isCreateLocation : Event → Bool
  | Event.createLocationCall _ _ => true
  | _ => false

/-- Recognizer for create-task events. -/
def isCreateTask : Event → Bool
  | Event.createTaskCall _ _ _ _ => true
  | _ => false

/-- Recognizer for describe-task events. -/
def isDescribeTask : Event → Bool
  | Event.describeTaskCall _ => true
  | _ => false

/-- Recognizer for start-task-execution events. -/
def isStartExec : Event → Bool
  | Event.startTaskExecutionCall _ _ => true
  | _ => false

/-- Recognizer for describe-task-execution events. -/
def isDescribeExec : Event → Bool
  | Event.describeTaskExecutionCall _ => true
  | _ => false

/-- Recognizer for per-tick log events. -/
def isLogTick : Event → Bool
  | Event.logTick _ _ => true
  | _ => false

/-- Recognizer for delete-location events. -/
def isDeleteLocation : Event → Bool
  | Event.deleteLocationCall _ => true
  | _ => false

/-- Recognizer for publish events. -/
def isPublish : Event → Bool
  | Event.publishCall _ _ => true
  | _ => false

/-- Events of a run that reaches a terminal execution status, up to but
excluding the cleanup deletions: the two eager create_location calls, the
create_task call, the k + 1 readiness polls, the start_task_execution
call, and the m + 1 execution polls. -/
def runPrefix (env : Env) (config : Config) (src dst : String) (k m : Nat) : List Event :=
  (create_location env.sourceCreateArn config.source).1
    ++ ((create_location env.destCreateArn config.destination).1
    ++ ([Event.createTaskCall src dst config.cloudwatch_log_group_arn config.excludes]
    ++ (taskPollEvents env (k + 1)
    ++ ([Event.startTaskExecutionCall env.taskArn config.includes]
    ++ execPollEvents env (m + 1)))))

/-- Sample nfs source descriptor, following configure-task.example.py. -/
def nfsSource : LocConfig :=
  { type_ := "nfs", hostname := "my-nfs-hostname", subdirectory := "/source/directory",
    agent_arns := some ["my-nfs-agent-arn"] }

/-- Sample s3 destination descriptor, following configure-task.example.py. -/
def s3Dest : LocConfig :=
  { type_ := "s3", arn := "my-s3-bucket-arn", subdirectory := "/target/directory",
    access_role_arn := some "my-s3-bucket-access-role-arn" }

/-- Descriptor with a type tag create_location does not recognize. -/
def ftpDest : LocConfig :=
  { type_ := "ftp", hostname := "my-ftp-hostname" }

/-- Successful execution response sample. -/
def okExec : ExecResponse :=
  { status := "SUCCESS", startTime := 100, filesTransferred := 3,
    resultErrorDetail := "", remoteEndTime := 222 }

/-- Failed execution response sample. -/
def errExec : ExecResponse :=
  { status := "ERROR", startTime := 100, filesTransferred := 1,
    resultErrorDetail := "mount failure", remoteEndTime := 222 }

/-- Still-running execution response sample. -/
def runningExec : ExecResponse :=
  { status := "TRANSFERRING", startTime := 100, filesTransferred := 0,
    resultErrorDetail := "", remoteEndTime := 222 }

/-- Base configuration used by concrete runs: no pre-existing identifiers. -/
def baseConfig : Config :=
  { source := nfsSource, destination := s3Dest,
    cloudwatch_log_group_arn := "my-cloudwatch-log-group-arn",
    sns_topic_arn := some "my-sns-topic-arn" }

/-- Environment where everything succeeds on the first poll. -/
def happyEnv : Env :=
  { sourceCreateArn := some "src-arn", destCreateArn := some "dst-arn",
    taskArn := some "task-arn", taskStatuses := fun _ => "AVAILABLE",
    execArn := some "exec-arn", execResponses := fun _ => okExec,
    elapsed := fun i => 5 * i, now := 300 }

/-- Configuration for the C1 failing input: the source identifier is
already populated and the source descriptor has a recognized kind. -/
def c1Config : Config :=
  { source_arn := some "arn-existing-src", source := nfsSource, destination := s3Dest,
    cloudwatch_log_group_arn := "my-cloudwatch-log-group-arn" }

/-- Environment whose readiness poll immediately reports UNAVAILABLE. -/
def unavailableEnv : Env :=
  { happyEnv with taskStatuses := fun _ => "UNAVAILABLE" }

/-- Environment whose readiness poll stays CREATING forever. -/
def neverReadyEnv : Env :=
  { happyEnv with taskStatuses := fun _ => "CREATING" }

/-- Environment whose execution stays TRANSFERRING for two polls and then
reports SUCCESS. -/
def c4Env : Env :=
  { happyEnv with execResponses := fun i => if i < 2 then runningExec else okExec }

/-- Environment whose execution fails on the first poll. -/
def errEnv : Env :=
  { happyEnv with execResponses := fun _ => errExec }

/-- Configuration whose source descriptor has the unrecognized tag ftp. -/
def c6Config : Config :=
  { source := ftpDest, destination := s3Dest,
    cloudwatch_log_group_arn := "my-cloudwatch-log-group-arn" }

/-- Configuration where the source resolves but the destination has an
unrecognized tag and no pre-existing identifier. -/
def c7Config : Config :=
  { source := nfsSource, destination := ftpDest,
    cloudwatch_log_group_arn := "my-cloudwatch-log-group-arn" }

/-- Environment where the task needs one extra readiness poll before it
turns AVAILABLE. -/
def c8Env : Env :=
  { happyEnv with taskStatuses := fun i => if i = 0 then "CREATING" else "AVAILABLE" }

/-- Configuration whose source identifier is supplied pre-existing and
which carries a notification topic. -/
def c9Config : Config :=
  { source_arn := some "arn-pre-existing", source := nfsSource, destination := s3Dest,
    cloudwatch_log_group_arn := "my-cloudwatch-log-group-arn",
    sns_topic_arn := some "my-sns-topic-arn" }

/-- The failure message of the concrete failed run of errEnv. -/
def errMsg : Message :=
  { template := TemplateKind.failure, count := 1,
    source := "src-arn", destination := "dst-arn",
    start_time := strftime 100, end_time := strftime 300,
    error := some "mount failure" }

lemma firstHitAux_some_sat (p : Nat → Bool) :
    ∀ fuel s k, firstHitAux p fuel s = some k → p k = true := by
  intro fuel
  induction fuel with
  | zero => intro s k h; simp [firstHitAux] at h
  | succ n ih =>
    intro s k h
    by_cases hp : p s = true
    · simp [firstHitAux, hp] at h
      subst h; exact hp
    · simp only [Bool.not_eq_true] at hp
      simp [firstHitAux, hp] at h
      exact ih _ _ h

lemma firstHitAux_none_of (p : Nat → Bool) (h : ∀ i, p i = false) :
    ∀ fuel s, firstHitAux p fuel s = none := by
  intro fuel
  induction fuel with
  | zero => intro s; rfl
  | succ n ih =>
    intro s
    simp only [firstHitAux, h s, Bool.false_eq_true, if_false]
    exact ih (s + 1)

lemma firstHitAux_eq_some (p : Nat → Bool) (k : Nat) (hk : p k = true) :
    ∀ fuel s, s ≤ k → k < s + fuel → (∀ j, s ≤ j → j < k → p j = false) →
      firstHitAux p fuel s = some k := by
  intro fuel
  induction fuel with
  | zero => intro s _ hlt _; omega
  | succ n ih =>
    intro s hs hlt hmin
    rcases Nat.eq_or_lt_of_le hs with heq | hlt2
    · subst heq; simp [firstHitAux, hk]
    · have hps : p s = false := hmin s le_rfl hlt2
      simp only [firstHitAux, hps, Bool.false_eq_true, if_false]
      exact ih (s + 1) hlt2 (by omega) (fun j hj hjk => hmin j (by omega) hjk)

lemma firstHit_some_sat (p : Nat → Bool) (fuel k : Nat)
    (h : firstHit p fuel = some k) : p k = true :=
  firstHitAux_some_sat p fuel 0 k h

lemma firstHit_none_of (p : Nat → Bool) (h : ∀ i, p i = false) (fuel : Nat) :
    firstHit p fuel = none :=
  firstHitAux_none_of p h fuel 0

lemma firstHit_eq_some (p : Nat → Bool) (k fuel : Nat) (hk : p k = true)
    (hfuel : k < fuel) (hmin : ∀ j, j < k → p j = false) :
    firstHit p fuel = some k :=
  firstHitAux_eq_some p k hk fuel 0 (Nat.zero_le k) (by omega)
    (fun j _ hjk => hmin j hjk)

lemma countP_create_location (p : Event → Bool) (r : Option String) (c : LocConfig)
    (hp : ∀ api payload, p (Event.createLocationCall api payload) = false) :
    ((create_location r c).1).countP p = 0 := by
  unfold create_location
  split_ifs <;> simp [List.countP_cons, hp]

lemma create_location_all_creates (r : Option String) (c : LocConfig) :
    ∀ e ∈ (create_location r c).1, isCreateLocation e = true := by
  unfold create_location
  split_ifs <;> intro e he <;> simp at he <;> simp [he, isCreateLocation]

lemma countP_taskPollEvents (env : Env) (p : Event → Bool) (n : Nat)
    (hp : ∀ s, p (Event.describeTaskCall s) = false) :
    (taskPollEvents env n).countP p = 0 := by
  induction n with
  | zero => rfl
  | succ n ih => simp [taskPollEvents, List.countP_append, ih, List.countP_cons, hp]

lemma countP_taskPollEvents_describe (env : Env) (n : Nat) :
    (taskPollEvents env n).countP isDescribeTask = n := by
  induction n with
  | zero => rfl
  | succ n ih =>
    simp [taskPollEvents, List.countP_append, ih, List.countP_cons, isDescribeTask]

lemma taskPollEvents_all_describes (env : Env) (n : Nat) :
    ∀ e ∈ taskPollEvents env n, isDescribeTask e = true := by
  induction n with
  | zero => intro e he; simp [taskPollEvents] at he
  | succ n ih =>
    intro e he
    simp only [taskPollEvents, List.mem_append, List.mem_singleton] at he
    rcases he with he | he
    · exact ih e he
    · simp [he, isDescribeTask]

lemma countP_execPollEvents (env : Env) (p : Event → Bool) (n : Nat)
    (hp1 : ∀ s, p (Event.describeTaskExecutionCall s) = false)
    (hp2 : ∀ d s, p (Event.logTick d s) = false) :
    (execPollEvents env n).countP p = 0 := by
  induction n with
  | zero => rfl
  | succ n ih =>
    simp [execPollEvents, execTickEvents, List.countP_append, ih, List.countP_cons, hp1, hp2]

lemma countP_execPollEvents_describe (env : Env) (n : Nat) :
    (execPollEvents env n).countP isDescribeExec = n := by
  induction n with
  | zero => rfl
  | succ n ih =>
    simp [execPollEvents, execTickEvents, List.countP_append, ih, List.countP_cons,
      isDescribeExec, isLogTick]

lemma countP_execPollEvents_log (env : Env) (n : Nat) :
    (execPollEvents env n).countP isLogTick = n := by
  induction n with
  | zero => rfl
  | succ n ih =>
    simp [execPollEvents, execTickEvents, List.countP_append, ih, List.countP_cons,
      isDescribeExec, isLogTick]

lemma mem_execPollEvents_log (env : Env) (n i : Nat) (h : i < n) :
    Event.logTick (env.elapsed i) ((env.execResponses i).status) ∈ execPollEvents env n := by
  induction n with
  | zero => omega
  | succ n ih =>
    simp only [execPollEvents, execTickEvents, List.mem_append]
    rcases Nat.lt_succ_iff_lt_or_eq.mp h with h2 | h2
    · exact Or.inl (ih h2)
    · subst h2; simp

lemma execPollEvents_no_publish (env : Env) (n : Nat) :
    ∀ e ∈ execPollEvents env n, isPublish e = false := by
  induction n with
  | zero => intro e he; simp [execPollEvents] at he
  | succ n ih =>
    intro e he
    simp only [execPollEvents, execTickEvents, List.mem_append] at he
    rcases he with he | he
    · exact ih e he
    · simp at he
      rcases he with he | he <;> simp [he, isPublish]

lemma countP_notifyEvents (env : Env) (config : Config) (src dst : String)
    (final : ExecResponse) (p : Event → Bool)
    (hp : ∀ s m, p (Event.publishCall s m) = false) :
    (notifyEvents env config src dst final).countP p = 0 := by
  unfold notifyEvents
  cases config.sns_topic_arn
  · rfl
  · split_ifs <;> simp [List.countP_cons, hp]

lemma notifyEvents_no_delete (env : Env) (config : Config) (src dst : String)
    (final : ExecResponse) :
    ∀ e ∈ notifyEvents env config src dst final, isDeleteLocation e = false := by
  unfold notifyEvents
  cases config.sns_topic_arn
  · intro e he; simp at he
  · split_ifs <;> intro e he <;> simp at he <;> simp [he, isDeleteLocation]

lemma runMain_resolve_none (env : Env) (config : Config) (fuel1 fuel2 : Nat)
    (h : resolveSource env config = none ∨ resolveDest env config = none) :
    runMain env config fuel1 fuel2 =
      ((create_location env.sourceCreateArn config.source).1
        ++ (create_location env.destCreateArn config.destination).1,
       RunResult.err RunError.invalidConfig) := by
  unfold runMain
  rcases h with h | h
  · rw [h]
  · rw [h]
    cases resolveSource env config <;> rfl

lemma runMain_ready_fuelOut (env : Env) (config : Config) (fuel1 fuel2 : Nat)
    (src dst : String)
    (hs : resolveSource env config = some src)
    (hd : resolveDest env config = some dst)
    (h : firstHit (fun i => readyTask (env.taskStatuses i)) fuel1 = none) :
    (runMain env config fuel1 fuel2).2 = RunResult.fuelOut := by
  unfold runMain
  rw [hs, hd, h]

lemma runMain_unavailable (env : Env) (config : Config) (fuel1 fuel2 : Nat)
    (src dst : String) (k : Nat)
    (hs : resolveSource env config = some src)
    (hd : resolveDest env config = some dst)
    (hk : firstHit (fun i => readyTask (env.taskStatuses i)) fuel1 = some k)
    (hku : env.taskStatuses k = "UNAVAILABLE") :
    runMain env config fuel1 fuel2 =
      ((create_location env.sourceCreateArn config.source).1
        ++ (create_location env.destCreateArn config.destination).1
        ++ [Event.createTaskCall src dst config.cloudwatch_log_group_arn config.excludes]
        ++ taskPollEvents env (k + 1),
       RunResult.err RunError.invalidArn) := by
  unfold runMain
  rw [hs, hd, hk]
  simp [hku, List.append_assoc]

lemma runMain_exec_fuelOut (env : Env) (config : Config) (fuel1 fuel2 : Nat)
    (src dst : String) (k : Nat)
    (hs : resolveSource env config = some src)
    (hd : resolveDest env config = some dst)
    (hk : firstHit (fun i => readyTask (env.taskStatuses i)) fuel1 = some k)
    (hku : ¬ env.taskStatuses k = "UNAVAILABLE")
    (hm : firstHit (fun i => terminalExec (env.execResponses i).status) fuel2 = none) :
    (runMain env config fuel1 fuel2).2 = RunResult.fuelOut := by
  unfold runMain
  rw [hs, hd, hk]
  simp [hku, hm]

lemma runMain_reach_exec (env : Env) (config : Config) (fuel1 fuel2 : Nat)
    (src dst : String) (k m : Nat)
    (hs : resolveSource env config = some src)
    (hd : resolveDest env config = some dst)
    (hk : firstHit (fun i => readyTask (env.taskStatuses i)) fuel1 = some k)
    (hku : ¬ env.taskStatuses k = "UNAVAILABLE")
    (hm : firstHit (fun i => terminalExec (env.execResponses i).status) fuel2 = some m) :
    runMain env config fuel1 fuel2 =
      ((create_location env.sourceCreateArn config.source).1
        ++ ((create_location env.destCreateArn config.destination).1
        ++ ([Event.createTaskCall src dst config.cloudwatch_log_group_arn config.excludes]
        ++ (taskPollEvents env (k + 1)
        ++ ([Event.startTaskExecutionCall env.taskArn config.includes]
        ++ (execPollEvents env (m + 1)
        ++ ([Event.deleteLocationCall src, Event.deleteLocationCall dst]
        ++ notifyEvents env config src dst (env.execResponses m))))))),
       RunResult.done) := by
  unfold runMain
  rw [hs, hd, hk]
  simp [hku, hm, List.append_assoc]

/-- C1: evaluation of the code at the failing input.  The claim says a
descriptor whose identifier is already populated never causes a create
call; the code evaluates the default argument of dict.get eagerly, so the
trace of a run whose source identifier is populated still contains the
create_location_nfs call produced from the source descriptor (and the code
contains no update call at all). -/
theorem C1_create_call_despite_populated_id :
    c1Config.source_arn = some "arn-existing-src" ∧
    (runMain happyEnv c1Config 4 4).1.countP
      (fun e => match e with
        | Event.createLocationCall api _ => api == "create_location_nfs"
        | _ => false) = 1 := by
  exact ⟨rfl, by decide⟩

/-- C2: whenever the first ready status observed by the readiness loop is
UNAVAILABLE, the run ends with the invalid-arn error and the trace contains
no start_task_execution call. -/
theorem C2_unavailable_fails_before_start (env : Env) (config : Config)
    (fuel1 fuel2 : Nat) (src dst : String) (k : Nat)
    (hs : resolveSource env config = some src)
    (hd : resolveDest env config = some dst)
    (hk : firstHit (fun i => readyTask (env.taskStatuses i)) fuel1 = some k)
    (hku : env.taskStatuses k = "UNAVAILABLE") :
    (runMain env config fuel1 fuel2).2 = RunResult.err RunError.invalidArn ∧
    (runMain env config fuel1 fuel2).1.countP isStartExec = 0 := by
  rw [runMain_unavailable env config fuel1 fuel2 src dst k hs hd hk hku]
  refine ⟨rfl, ?_⟩
  simp only [List.countP_append, List.countP_cons, List.countP_nil]
  rw [countP_create_location isStartExec _ _ (fun _ _ => rfl),
      countP_create_location isStartExec _ _ (fun _ _ => rfl),
      countP_taskPollEvents env isStartExec _ (fun _ => rfl)]
  rfl

/-- Witness for C2 at a concrete environment. -/
theorem C2_witness :
    (runMain unavailableEnv baseConfig 3 3).2 = RunResult.err RunError.invalidArn ∧
    (runMain unavailableEnv baseConfig 3 3).1.countP isStartExec = 0 :=
  C2_unavailable_fails_before_start unavailableEnv baseConfig 3 3
    "src-arn" "dst-arn" 0 rfl rfl rfl rfl

/-- C3: each polling loop stops only upon a ready (readiness loop) or
terminal (execution loop) status, and on a scripted stream that never
produces one, the run ends in fuelOut for every fuel bound, with no error
reported: the Python loop never terminates. -/
theorem C3_polling_stops_only_on_defined_status (env : Env) (config : Config)
    (src dst : String)
    (hs : resolveSource env config = some src)
    (hd : resolveDest env config = some dst) :
    (∀ fuel k, firstHit (fun i => readyTask (env.taskStatuses i)) fuel = some k →
        readyTask (env.taskStatuses k) = true) ∧
    (∀ fuel m, firstHit (fun i => terminalExec (env.execResponses i).status) fuel = some m →
        terminalExec (env.execResponses m).status = true) ∧
    ((∀ i, readyTask (env.taskStatuses i) = false) →
        ∀ fuel1 fuel2, (runMain env config fuel1 fuel2).2 = RunResult.fuelOut) ∧
    (∀ fuel1 k, firstHit (fun i => readyTask (env.taskStatuses i)) fuel1 = some k →
        ¬ env.taskStatuses k = "UNAVAILABLE" →
        (∀ i, terminalExec (env.execResponses i).status = false) →
        ∀ fuel2, (runMain env config fuel1 fuel2).2 = RunResult.fuelOut) := by
  refine ⟨fun fuel k h => firstHit_some_sat _ fuel k h,
          fun fuel m h => firstHit_some_sat _ fuel m h,
          fun hnever fuel1 fuel2 =>
            runMain_ready_fuelOut env config fuel1 fuel2 src dst hs hd
              (firstHit_none_of _ hnever fuel1),
          fun fuel1 k hk hku hnever fuel2 =>
            runMain_exec_fuelOut env config fuel1 fuel2 src dst k hs hd hk hku
              (firstHit_none_of _ hnever fuel2)⟩

/-- Witness for C3: under a stream that never turns ready, every fuel
bound ends in fuelOut. -/
theorem C3_witness :
    (runMain neverReadyEnv baseConfig 7 9).2 = RunResult.fuelOut :=
  (C3_polling_stops_only_on_defined_status neverReadyEnv baseConfig
    "src-arn" "dst-arn" rfl rfl).2.2.1 (fun _ => rfl) 7 9

/-- C4: when the scripted execution statuses form a finite list whose last
entry is SUCCESS and whose earlier entries are non-terminal, the execution
loop issues exactly one describe_task_execution call per entry of the list,
start_task_execution is called exactly once, and the run returns normally. -/
theorem C4_one_describe_per_response_single_start (env : Env) (config : Config)
    (fuel1 fuel2 : Nat) (src dst : String) (k : Nat) (l : List String)
    (hs : resolveSource env config = some src)
    (hd : resolveDest env config = some dst)
    (hk : firstHit (fun i => readyTask (env.taskStatuses i)) fuel1 = some k)
    (hku : ¬ env.taskStatuses k = "UNAVAILABLE")
    (hne : l ≠ [])
    (hlast : l.getLast hne = "SUCCESS")
    (hpre : ∀ j, j + 1 < l.length → terminalExec (l.getD j "") = false)
    (hresp : ∀ i, i < l.length → (env.execResponses i).status = l.getD i "")
    (hfuel : l.length ≤ fuel2) :
    (runMain env config fuel1 fuel2).1.countP isDescribeExec = l.length ∧
    (runMain env config fuel1 fuel2).1.countP isStartExec = 1 ∧
    (runMain env config fuel1 fuel2).2 = RunResult.done := by
  have hpos : 0 < l.length := List.length_pos.mpr hne
  have hgetD : l.getD (l.length - 1) "" = l.getLast hne := by
    rw [List.getD_eq_getElem?_getD, List.getLast_eq_getElem,
      List.getElem?_eq_getElem (by omega)]
    rfl
  have hterm : terminalExec (env.execResponses (l.length - 1)).status = true := by
    rw [hresp _ (by omega), hgetD, hlast]
    rfl
  have hmin : ∀ j, j < l.length - 1 → terminalExec (env.execResponses j).status = false := by
    intro j hj
    rw [hresp _ (by omega)]
    exact hpre j (by omega)
  have hm : firstHit (fun i => terminalExec (env.execResponses i).status) fuel2
      = some (l.length - 1) :=
    firstHit_eq_some _ _ _ hterm (by omega) hmin
  rw [runMain_reach_exec env config fuel1 fuel2 src dst k (l.length - 1) hs hd hk hku hm]
  have hsucc : l.length - 1 + 1 = l.length := by omega
  refine ⟨?_, ?_, rfl⟩
  · simp only [List.countP_append]
    rw [countP_create_location isDescribeExec _ _ (fun _ _ => rfl),
        countP_create_location isDescribeExec _ _ (fun _ _ => rfl),
        countP_taskPollEvents env isDescribeExec _ (fun _ => rfl),
        countP_execPollEvents_describe, hsucc,
        countP_notifyEvents env config src dst _ isDescribeExec (fun _ _ => rfl)]
    simp [List.countP_cons, isDescribeExec]
  · simp only [List.countP_append]
    rw [countP_create_location isStartExec _ _ (fun _ _ => rfl),
        countP_create_location isStartExec _ _ (fun _ _ => rfl),
        countP_taskPollEvents env isStartExec _ (fun _ => rfl),
        countP_execPollEvents env isStartExec _ (fun _ => rfl) (fun _ _ => rfl),
        countP_notifyEvents env config src dst _ isStartExec (fun _ _ => rfl)]
    simp [List.countP_cons, isStartExec]

/-- Witness for C4 on the scripted response list of length three. -/
theorem C4_witness :
    (runMain c4Env baseConfig 4 6).1.countP isDescribeExec = 3 ∧
    (runMain c4Env baseConfig 4 6).1.countP isStartExec = 1 ∧
    (runMain c4Env baseConfig 4 6).2 = RunResult.done :=
  C4_one_describe_per_response_single_start c4Env baseConfig 4 6
    "src-arn" "dst-arn" 0 ["TRANSFERRING", "TRANSFERRING", "SUCCESS"]
    rfl rfl rfl (by decide) (by decide) rfl
    (by
      intro j hj
      simp only [List.length_cons, List.length_nil] at hj
      have hj2 : j < 2 := by omega
      interval_cases j <;> rfl)
    (by
      intro i hi
      simp only [List.length_cons, List.length_nil] at hi
      have hi2 : i < 3 := by omega
      interval_cases i <;> rfl)
    (by decide)

/-- C5: when the execution ends with the terminal status ERROR and a
notification topic is configured, exactly one publish happens, and its
message is the failure template with the transfer count, the two location
identifiers and the error detail of the execution result substituted for
the named placeholders. -/
theorem C5_failure_notification_substitutions (env : Env) (config : Config)
    (fuel1 fuel2 : Nat) (src dst topic : String) (k m : Nat)
    (hs : resolveSource env config = some src)
    (hd : resolveDest env config = some dst)
    (hk : firstHit (fun i => readyTask (env.taskStatuses i)) fuel1 = some k)
    (hku : ¬ env.taskStatuses k = "UNAVAILABLE")
    (hm : firstHit (fun i => terminalExec (env.execResponses i).status) fuel2 = some m)
    (ht : config.sns_topic_arn = some topic)
    (herr : (env.execResponses m).status = "ERROR") :
    (runMain env config fuel1 fuel2).1.countP isPublish = 1 ∧
    Event.publishCall "DataSync Failure"
      { template := TemplateKind.failure,
        count := (env.execResponses m).filesTransferred,
        source := src, destination := dst,
        start_time := strftime (env.execResponses m).startTime,
        end_time := strftime env.now,
        error := some (env.execResponses m).resultErrorDetail }
      ∈ (runMain env config fuel1 fuel2).1 := by
  rw [runMain_reach_exec env config fuel1 fuel2 src dst k m hs hd hk hku hm]
  have hnotify : notifyEvents env config src dst (env.execResponses m) =
      [Event.publishCall "DataSync Failure"
        { template := TemplateKind.failure,
          count := (env.execResponses m).filesTransferred,
          source := src, destination := dst,
          start_time := strftime (env.execResponses m).startTime,
          end_time := strftime env.now,
          error := some (env.execResponses m).resultErrorDetail }] := by
    unfold notifyEvents
    rw [ht]
    simp [herr]
  constructor
  · simp only [List.countP_append, hnotify]
    rw [countP_create_location isPublish _ _ (fun _ _ => rfl),
        countP_create_location isPublish _ _ (fun _ _ => rfl),
        countP_taskPollEvents env isPublish _ (fun _ => rfl),
        countP_execPollEvents env isPublish _ (fun _ => rfl) (fun _ _ => rfl)]
    simp [List.countP_cons, isPublish]
  · rw [hnotify]
    simp [List.mem_append]

/-- Witness for C5 at a concrete failed run. -/
theorem C5_witness :
    (runMain errEnv baseConfig 3 3).1.countP isPublish = 1 ∧
    Event.publishCall "DataSync Failure"
      { template := TemplateKind.failure, count := 1,
        source := "src-arn", destination := "dst-arn",
        start_time := strftime 100, end_time := strftime 300,
        error := some "mount failure" }
      ∈ (runMain errEnv baseConfig 3 3).1 :=
  C5_failure_notification_substitutions errEnv baseConfig 3 3
    "src-arn" "dst-arn" "my-sns-topic-arn" 0 0 rfl rfl rfl (by decide) rfl rfl rfl

/-- C6: a type tag outside the six recognized ones makes create_location
issue no remote call and return no identifier, and a run that needs that
descriptor's identifier (no pre-existing one in the configuration) raises
the configuration error. -/
theorem C6_unrecognized_kind_fails_without_call (env : Env) (config : Config)
    (fuel1 fuel2 : Nat)
    (hkind : recognizedKind config.source.type_ = false)
    (hna : config.source_arn = none) :
    create_location env.sourceCreateArn config.source = ([], none) ∧
    (runMain env config fuel1 fuel2).2 = RunResult.err RunError.invalidConfig := by
  have hcl : create_location env.sourceCreateArn config.source = ([], none) := by
    unfold create_location
    simp only [recognizedKind, Bool.or_eq_false_iff, decide_eq_false_iff_not] at hkind
    obtain ⟨⟨⟨⟨⟨h1, h2⟩, h3⟩, h4⟩, h5⟩, h6⟩ := hkind
    simp [h1, h2, h3, h4, h5, h6]
  refine ⟨hcl, ?_⟩
  have hnone : resolveSource env config = none := by
    unfold resolveSource
    rw [hna, hcl]
  rw [runMain_resolve_none env config fuel1 fuel2 (Or.inl hnone)]

/-- Witness for C6 at a concrete configuration. -/
theorem C6_witness :
    create_location happyEnv.sourceCreateArn c6Config.source = ([], none) ∧
    (runMain happyEnv c6Config 3 3).2 = RunResult.err RunError.invalidConfig :=
  C6_unrecognized_kind_fails_without_call happyEnv c6Config 3 3 (by decide) rfl

/-- C7 counterexample: the run raises the configuration error although the
source location did resolve, so the failure condition is not (as the claim
puts it, following the spec) that neither location resolves: failure
already happens when only one of the two resolutions yields no identifier. -/
theorem C7_counterexample_single_failure :
    resolveSource happyEnv c7Config = some "src-arn" ∧
    ¬ (resolveSource happyEnv c7Config = none ∧ resolveDest happyEnv c7Config = none) ∧
    (runMain happyEnv c7Config 3 3).2 = RunResult.err RunError.invalidConfig ∧
    (runMain happyEnv c7Config 3 3).1.countP isCreateTask = 0 := by
  refine ⟨rfl, by decide, rfl, by decide⟩

/-- C7 amended: the run raises the configuration error exactly when at
least one of the two locations fails to yield an identifier, and whenever
that happens no create_task call is issued. -/
theorem C7_config_error_iff_some_resolution_fails (env : Env) (config : Config)
    (fuel1 fuel2 : Nat) :
    ((runMain env config fuel1 fuel2).2 = RunResult.err RunError.invalidConfig ↔
      resolveSource env config = none ∨ resolveDest env config = none) ∧
    ((resolveSource env config = none ∨ resolveDest env config = none) →
      (runMain env config fuel1 fuel2).1.countP isCreateTask = 0) := by
  rcases hsrc : resolveSource env config with _ | src
  · rw [runMain_resolve_none env config fuel1 fuel2 (Or.inl hsrc)]
    refine ⟨by simp, fun _ => ?_⟩
    simp only [List.countP_append]
    rw [countP_create_location isCreateTask _ _ (fun _ _ => rfl),
        countP_create_location isCreateTask _ _ (fun _ _ => rfl)]
  · rcases hdst : resolveDest env config with _ | dst
    · rw [runMain_resolve_none env config fuel1 fuel2 (Or.inr hdst)]
      refine ⟨by simp, fun _ => ?_⟩
      simp only [List.countP_append]
      rw [countP_create_location isCreateTask _ _ (fun _ _ => rfl),
          countP_create_location isCreateTask _ _ (fun _ _ => rfl)]
    · refine ⟨⟨fun hres => ?_, by simp⟩, by simp⟩
      exfalso
      rcases hk : firstHit (fun i => readyTask (env.taskStatuses i)) fuel1 with _ | k
      · rw [runMain_ready_fuelOut env config fuel1 fuel2 src dst hsrc hdst hk] at hres
        simp at hres
      · by_cases hku : env.taskStatuses k = "UNAVAILABLE"
        · rw [runMain_unavailable env config fuel1 fuel2 src dst k hsrc hdst hk hku] at hres
          simp at hres
        · rcases hm : firstHit (fun i => terminalExec (env.execResponses i).status) fuel2
            with _ | m
          · rw [runMain_exec_fuelOut env config fuel1 fuel2 src dst k hsrc hdst hk hku hm]
              at hres
            simp at hres
          · rw [runMain_reach_exec env config fuel1 fuel2 src dst k m hsrc hdst hk hku hm]
              at hres
            simp at hres

/-- Witness for the amended C7 at a concrete input where the destination
resolution fails. -/
theorem C7_witness :
    (runMain happyEnv c7Config 3 3).1.countP isCreateTask = 0 :=
  (C7_config_error_iff_some_resolution_fails happyEnv c7Config 3 3).2 (Or.inr rfl)

lemma nonDelete_nonPublish_of_class (e : Event)
    (h : isCreateLocation e = true ∨ isDescribeTask e = true ∨ isDescribeExec e = true ∨
      isLogTick e = true ∨ isStartExec e = true ∨ isCreateTask e = true) :
    isDeleteLocation e = false ∧ isPublish e = false := by
  cases e <;>
    simp [isCreateLocation, isDescribeTask, isDescribeExec, isLogTick,
      isStartExec, isCreateTask, isDeleteLocation, isPublish] at h ⊢

lemma create_location_no_delete_publish (r : Option String) (c : LocConfig) :
    ∀ e ∈ (create_location r c).1, isDeleteLocation e = false ∧ isPublish e = false :=
  fun e he =>
    nonDelete_nonPublish_of_class e (Or.inl (create_location_all_creates r c e he))

lemma taskPollEvents_no_delete_publish (env : Env) (n : Nat) :
    ∀ e ∈ taskPollEvents env n, isDeleteLocation e = false ∧ isPublish e = false :=
  fun e he =>
    nonDelete_nonPublish_of_class e (Or.inr (Or.inl (taskPollEvents_all_describes env n e he)))

lemma execPollEvents_classes (env : Env) (n : Nat) :
    ∀ e ∈ execPollEvents env n, isDescribeExec e = true ∨ isLogTick e = true := by
  induction n with
  | zero => intro e he; simp [execPollEvents] at he
  | succ n ih =>
    intro e he
    simp only [execPollEvents, execTickEvents, List.mem_append] at he
    rcases he with he | he
    · exact ih e he
    · simp at he
      rcases he with he | he
      · exact Or.inl (by simp [he, isDescribeExec])
      · exact Or.inr (by simp [he, isLogTick])

lemma execPollEvents_no_delete_publish (env : Env) (n : Nat) :
    ∀ e ∈ execPollEvents env n, isDeleteLocation e = false ∧ isPublish e = false := by
  intro e he
  rcases execPollEvents_classes env n e he with h | h
  · exact nonDelete_nonPublish_of_class e (Or.inr (Or.inr (Or.inl h)))
  · exact nonDelete_nonPublish_of_class e (Or.inr (Or.inr (Or.inr (Or.inl h))))

/-- C8 counterexample: in this run the loops perform three poll ticks in
total, two readiness describes and one execution describe, yet only one log
event is produced (by the execution tick), so it is false that every poll
tick of both loops logs the elapsed duration and the current status; and
run-task.py contains no caller-supplied per-tick check at all. -/
theorem C8_counterexample_readiness_ticks_unlogged :
    (runMain c8Env baseConfig 4 4).1.countP isDescribeTask = 2 ∧
    (runMain c8Env baseConfig 4 4).1.countP isDescribeExec = 1 ∧
    (runMain c8Env baseConfig 4 4).1.countP isLogTick = 1 ∧
    ¬ (runMain c8Env baseConfig 4 4).1.countP isLogTick =
        (runMain c8Env baseConfig 4 4).1.countP isDescribeTask +
        (runMain c8Env baseConfig 4 4).1.countP isDescribeExec :=
  ⟨by decide, by decide, by decide, by decide⟩

/-- C8 amended: every tick of the execution loop logs the elapsed duration
together with the freshly observed status (one log event per execution
describe, with exactly those contents), while the ticks of the readiness
loop emit no log event, and no caller-supplied check is invoked anywhere
(run-task.py defines no hooks). -/
theorem C8_logging_only_in_execution_loop (env : Env) (config : Config)
    (fuel1 fuel2 : Nat) (src dst : String) (k m : Nat)
    (hs : resolveSource env config = some src)
    (hd : resolveDest env config = some dst)
    (hk : firstHit (fun i => readyTask (env.taskStatuses i)) fuel1 = some k)
    (hku : ¬ env.taskStatuses k = "UNAVAILABLE")
    (hm : firstHit (fun i => terminalExec (env.execResponses i).status) fuel2 = some m) :
    (runMain env config fuel1 fuel2).1.countP isLogTick = m + 1 ∧
    (runMain env config fuel1 fuel2).1.countP isDescribeExec = m + 1 ∧
    (runMain env config fuel1 fuel2).1.countP isDescribeTask = k + 1 ∧
    ∀ i, i ≤ m → Event.logTick (env.elapsed i) ((env.execResponses i).status)
        ∈ (runMain env config fuel1 fuel2).1 := by
  rw [runMain_reach_exec env config fuel1 fuel2 src dst k m hs hd hk hku hm]
  refine ⟨?_, ?_, ?_, ?_⟩
  · simp only [List.countP_append]
    rw [countP_create_location isLogTick _ _ (fun _ _ => rfl),
        countP_create_location isLogTick _ _ (fun _ _ => rfl),
        countP_taskPollEvents env isLogTick _ (fun _ => rfl),
        countP_execPollEvents_log,
        countP_notifyEvents env config src dst _ isLogTick (fun _ _ => rfl)]
    simp [List.countP_cons, isLogTick]
  · simp only [List.countP_append]
    rw [countP_create_location isDescribeExec _ _ (fun _ _ => rfl),
        countP_create_location isDescribeExec _ _ (fun _ _ => rfl),
        countP_taskPollEvents env isDescribeExec _ (fun _ => rfl),
        countP_execPollEvents_describe,
        countP_notifyEvents env config src dst _ isDescribeExec (fun _ _ => rfl)]
    simp [List.countP_cons, isDescribeExec]
  · simp only [List.countP_append]
    rw [countP_create_location isDescribeTask _ _ (fun _ _ => rfl),
        countP_create_location isDescribeTask _ _ (fun _ _ => rfl),
        countP_taskPollEvents_describe,
        countP_execPollEvents env isDescribeTask _ (fun _ => rfl) (fun _ _ => rfl),
        countP_notifyEvents env config src dst _ isDescribeTask (fun _ _ => rfl)]
    simp [List.countP_cons, isDescribeTask]
  · intro i hi
    simp only [List.mem_append]
    exact Or.inr (Or.inr (Or.inr (Or.inr (Or.inr (Or.inl
      (mem_execPollEvents_log env (m + 1) i (by omega)))))))

/-- Witness for the amended C8 at a concrete run with two readiness ticks
and one execution tick. -/
theorem C8_witness :
    (runMain c8Env baseConfig 4 4).1.countP isLogTick = 0 + 1 ∧
    (runMain c8Env baseConfig 4 4).1.countP isDescribeTask = 1 + 1 ∧
    Event.logTick (c8Env.elapsed 0) ((c8Env.execResponses 0).status)
      ∈ (runMain c8Env baseConfig 4 4).1 :=
  let h := C8_logging_only_in_execution_loop c8Env baseConfig 4 4
    "src-arn" "dst-arn" 1 0 rfl rfl rfl (by decide) rfl
  ⟨h.1, h.2.2.1, h.2.2.2 0 (Nat.le_refl 0)⟩

/-- C9: after the execution loop exits with a terminal status, the run
deletes both locations, also when their identifiers were supplied
pre-existing in the configuration rather than created during the run, and
every notification event comes after the two deletions: the trace is a
publish-free, delete-free run prefix, then the two delete calls, then the
notification block. -/
theorem C9_cleanup_unconditional_before_notify (env : Env) (config : Config)
    (fuel1 fuel2 : Nat) (src dst : String) (k m : Nat)
    (hs : resolveSource env config = some src)
    (hd : resolveDest env config = some dst)
    (hk : firstHit (fun i => readyTask (env.taskStatuses i)) fuel1 = some k)
    (hku : ¬ env.taskStatuses k = "UNAVAILABLE")
    (hm : firstHit (fun i => terminalExec (env.execResponses i).status) fuel2 = some m) :
    (runMain env config fuel1 fuel2).1
      = runPrefix env config src dst k m
        ++ [Event.deleteLocationCall src, Event.deleteLocationCall dst]
        ++ notifyEvents env config src dst (env.execResponses m) ∧
    ∀ e ∈ runPrefix env config src dst k m,
      isDeleteLocation e = false ∧ isPublish e = false := by
  rw [runMain_reach_exec env config fuel1 fuel2 src dst k m hs hd hk hku hm]
  constructor
  · simp [runPrefix, List.append_assoc]
  · intro e he
    simp only [runPrefix, List.mem_append, List.mem_singleton] at he
    rcases he with he | he | he | he | he | he
    · exact create_location_no_delete_publish _ _ e he
    · exact create_location_no_delete_publish _ _ e he
    · subst he; exact ⟨rfl, rfl⟩
    · exact taskPollEvents_no_delete_publish env _ e he
    · subst he; exact ⟨rfl, rfl⟩
    · exact execPollEvents_no_delete_publish env _ e he

/-- Witness for C9: the pre-existing source identifier is deleted too, and
the deletions precede the notification block. -/
theorem C9_witness :
    (runMain errEnv c9Config 3 3).1
      = runPrefix errEnv c9Config "arn-pre-existing" "dst-arn" 0 0
        ++ [Event.deleteLocationCall "arn-pre-existing", Event.deleteLocationCall "dst-arn"]
        ++ notifyEvents errEnv c9Config "arn-pre-existing" "dst-arn" (errEnv.execResponses 0) :=
  (C9_cleanup_unconditional_before_notify errEnv c9Config 3 3
    "arn-pre-existing" "dst-arn" 0 0 rfl rfl rfl (by decide) rfl).1

/-- C10: every message published at the end of a run, success or failure,
takes its start_time from the StartTime of the remote execution result and
its end_time from the local clock at the moment the notification is
rendered; in particular the end timestamp the remote result may carry is
never used. -/
theorem C10_end_time_from_local_clock (env : Env) (config : Config)
    (fuel1 fuel2 : Nat) (src dst : String) (k m : Nat)
    (hs : resolveSource env config = some src)
    (hd : resolveDest env config = some dst)
    (hk : firstHit (fun i => readyTask (env.taskStatuses i)) fuel1 = some k)
    (hku : ¬ env.taskStatuses k = "UNAVAILABLE")
    (hm : firstHit (fun i => terminalExec (env.execResponses i).status) fuel2 = some m) :
    ∀ s msg, Event.publishCall s msg ∈ (runMain env config fuel1 fuel2).1 →
      msg.start_time = strftime (env.execResponses m).startTime ∧
      msg.end_time = strftime env.now := by
  rw [runMain_reach_exec env config fuel1 fuel2 src dst k m hs hd hk hku hm]
  intro s msg hmem
  simp only [List.mem_append, List.mem_singleton] at hmem
  rcases hmem with h | h | h | h | h | h | h | h
  · have hc := (create_location_no_delete_publish _ _ _ h).2
    simp [isPublish] at hc
  · have hc := (create_location_no_delete_publish _ _ _ h).2
    simp [isPublish] at hc
  · simp at h
  · have hc := (taskPollEvents_no_delete_publish env _ _ h).2
    simp [isPublish] at hc
  · simp at h
  · have hc := (execPollEvents_no_delete_publish env _ _ h).2
    simp [isPublish] at hc
  · simp at h
  · unfold notifyEvents at h
    cases htop : config.sns_topic_arn with
    | none => rw [htop] at h; simp at h
    | some topic =>
      rw [htop] at h
      split_ifs at h <;> simp at h
      · obtain ⟨-, hmsg⟩ := h
        subst hmsg; exact ⟨rfl, rfl⟩
      · obtain ⟨-, hmsg⟩ := h
        subst hmsg; exact ⟨rfl, rfl⟩

/-- Witness for C10: the concrete published failure message carries the
remote StartTime as start_time and the local clock value as end_time, and
the latter differs from the end timestamp of the remote result. -/
theorem C10_witness :
    errMsg.start_time = strftime 100 ∧ errMsg.end_time = strftime 300 ∧
    ¬ strftime 300 = strftime ((errEnv.execResponses 0).remoteEndTime) :=
  let h := C10_end_time_from_local_clock errEnv baseConfig 3 3
    "src-arn" "dst-arn" 0 0 rfl rfl rfl (by decide) rfl
    "DataSync Failure" errMsg (List.mem_of_mem_getLast? (by rfl))
  ⟨h.1, h.2, by decide⟩

end DataSync
